import Mathlib

/-!
Verification development for the ListenBrainz submission module
(modules/misc/listenbrainz.c).

The module tracks the currently played media item as a `listen_t` record,
validates it when a track ends or changes (`Enqueue`), keeps accepted
records in a vector (`queue`), and a background thread (`Run`) drains the
queue: it serializes the batch to JSON (`PreparePayload`), wraps it into an
HTTP request (`PrepareRequest`), sends it over TLS (`SendRequest`) and
clears the queue only on success, otherwise backing off for 60 seconds.

C strings are embedded as `Option (List Char)`: `none` is a NULL pointer,
`some []` an empty string.  Machine integers that matter here (`time_t`
dates, second counters, tick counters) are embedded as `Nat`; none of the
claims depends on overflow behaviour.
-/

/-- Character list standing for a C string's contents. -/
abbrev Str := List Char

/-- Shorthand turning a Lean string literal into a `Str`. -/
def lit (s : String) : Str := s.toList

/-- Embedding of VLC's `EMPTY_STR(str)` macro, `(!str || !*str)`:
true on a NULL pointer or an empty string. -/
def emptyStrB : Option Str → Bool
  | none => true
  | some s => s.isEmpty

/-- Embedding of `listen_t` (listenbrainz.c lines 47-55). -/
structure listen_t where
  psz_artist : Option Str
  psz_title : Option Str
  psz_album : Option Str
  psz_track_number : Option Str
  psz_musicbrainz_recording_id : Option Str
  i_length : Nat
  date : Nat
deriving DecidableEq

/-- Result of `DeleteSong` (lines 102-111) and also of
`memset(&p_current_song, 0, ...)` (line 205): all string fields NULL,
length and date zero. -/
def emptyListen : listen_t :=
  { psz_artist := none
    psz_title := none
    psz_album := none
    psz_track_number := none
    psz_musicbrainz_recording_id := none
    i_length := 0
    date := 0 }

/-- The part of `intf_sys_t` (lines 59-78) the claims are about: the queue
vector, the liveness flag, the current song, the metadata-read flag and the
played-seconds counter maintained by `OnTimerUpdate`. -/
structure IntfSys where
  queue : List listen_t
  live : Bool
  p_current_song : listen_t
  b_meta_read : Bool
  time_played : Nat
deriving DecidableEq

/-- The `i_length` defaulting performed by `Enqueue` lines 193-194:
`if (p_current_song.i_length == 0) i_length = time_played;`. -/
def finalizeListen (cur : listen_t) (tp : Nat) : listen_t :=
  if cur.i_length = 0 then { cur with i_length := tp } else cur

/-- Eligibility test implicit in `Enqueue` lines 186-200: artist and title
non-empty (per `EMPTY_STR`) and at least 30 observed seconds. -/
def eligibleListen (cur : listen_t) (tp : Nat) : Bool :=
  !emptyStrB cur.psz_artist && !emptyStrB cur.psz_title && decide (30 ≤ tp)

/-- Embedding of `Enqueue` (lines 176-214).  It clears `b_meta_read`, is a
no-op on the zero-date sentinel (song never initialized, line 182), rejects
records with missing artist or title (line 186) or listened less than 30
seconds (line 196) by `DeleteSong`, and otherwise defaults `i_length`,
pushes the record and resets the current song by `memset`. -/
def Enqueue (s : IntfSys) : IntfSys :=
  let s := { s with b_meta_read := false }
  if s.p_current_song.date = 0 then s
  else if emptyStrB s.p_current_song.psz_artist || emptyStrB s.p_current_song.psz_title then
    { s with p_current_song := emptyListen }
  else
    let cur := finalizeListen s.p_current_song s.time_played
    if s.time_played < 30 then { s with p_current_song := emptyListen }
    else { s with queue := s.queue ++ [cur], p_current_song := emptyListen }

/-- Embedding of VLC's `VLC_TICK_FROM_SEC`: ticks are microseconds. -/
def vlcTickFromSec (n : Nat) : Nat := n * 1000000

/-- Embedding of VLC's `SEC_FROM_VLC_TICK`. -/
def secFromVlcTick (t : Nat) : Nat := t / 1000000

/-- Embedding of `vlc_vector_push` on the song queue: append one element. -/
def vlcVectorPush (q : List listen_t) (r : listen_t) : List listen_t := q ++ [r]

/-- Model of one pass of the submission section of `Run` (lines 541-571) as
it affects the queue.  `q` is the queue snapshot serialized while the lock
was held; `pushed` are the records the producer appended while the lock was
released for network I/O; `ok` tells whether `SendRequest` returned
`VLC_SUCCESS`.  Returns the queue after the worker re-takes the lock and
runs lines 562-571 (`DeleteSongQueue` on success, nothing on failure),
paired with the resulting `b_wait` flag. -/
def submitPhase (q pushed : List listen_t) (ok : Bool) : List listen_t × Bool :=
  if ok then ([], false) else (q ++ pushed, true)

/-- Possible outcomes of the transport steps inside `SendRequest`
(lines 329-378): TLS connect failure (line 338), write failure (line 346),
a read returning no data (`i_ret <= 0`, line 357), or a successful read of
`buf` bytes. -/
inductive SendOutcome where
  | connectFail
  | writeFail
  | readFail
  | response (buf : Str)
deriving DecidableEq

/-- Result of `SendRequest`: `VLC_SUCCESS`, `VLC_EGENERIC`, or the
undefined behaviour at line 365 where the NULL returned by
`strchr(p_buffer, newline)` is dereferenced (`*status = 0`). -/
inductive ReqResult where
  | success
  | egeneric
  | nullDeref
deriving DecidableEq

/-- First line of the response buffer: what remains of `p_buffer` after
`*status = 0` truncates it at the first newline (lines 364-365). -/
def statusLine (buf : Str) : Str := buf.takeWhile (fun c => !(c = '\n'))

/-- Whether `strchr(p_buffer, newline)` finds a newline. -/
def hasNewline (buf : Str) : Bool := buf.contains '\n'

/-- Helper for `strstr`: does the haystack start with the needle? -/
def startsWithStr : Str → Str → Bool
  | [], _ => true
  | _ :: _, [] => false
  | n :: ns, h :: hs => n = h && startsWithStr ns hs

/-- Embedding of `strstr(hay, needle) != NULL`. -/
def hasSubstr (needle : Str) : Str → Bool
  | [] => needle.isEmpty
  | h :: hs => startsWithStr needle (h :: hs) || hasSubstr needle (hs)

/-- Embedding of `SendRequest` (lines 329-378) after the request bytes are
written: every transport failure returns `VLC_EGENERIC`; on a read of
`buf`, the buffer is truncated at the first newline and success is reported
iff the remaining first line contains `"200"` (line 367); 401 and every
other status fall through to `VLC_EGENERIC` (lines 372-377).  A buffer with
no newline makes line 365 dereference NULL, modelled as `nullDeref`. -/
def SendRequest : SendOutcome → ReqResult
  | SendOutcome.connectFail => ReqResult.egeneric
  | SendOutcome.writeFail => ReqResult.egeneric
  | SendOutcome.readFail => ReqResult.egeneric
  | SendOutcome.response buf =>
    if hasNewline buf then
      if hasSubstr (lit "200") (statusLine buf) then ReqResult.success
      else ReqResult.egeneric
    else ReqResult.nullDeref

/-- Observation made by the backoff loop of `Run` (lines 527-533) at each
evaluation of `p_sys->live && ret == 0`: the liveness flag and the clock
value at that moment (which determines whether `vlc_cond_timedwait`
reported `ETIMEDOUT` for the deadline computed at line 529). -/
structure BWEvent where
  live : Bool
  now : Nat
deriving DecidableEq

/-- Why the backoff loop stopped. -/
inductive BWExit where
  | shutdown
  | timeout
deriving DecidableEq

/-- Whether `vlc_cond_timedwait` returns non-zero (`ETIMEDOUT`): exactly
when the deadline has passed.  A signal before the deadline returns 0. -/
def timedwaitRet (deadline : Nat) (e : BWEvent) : Bool := decide (deadline ≤ e.now)

/-- Embedding of the backoff loop body
`while (p_sys->live && ret == 0) ret = vlc_cond_timedwait(...)`:
at each observation, a false liveness flag ends the loop; otherwise a
non-zero wait status (deadline passed) ends it; otherwise it keeps waiting.
`none` means the trace ended with the worker still blocked. -/
def backoffLoop (deadline : Nat) : List BWEvent → Option BWExit
  | [] => none
  | e :: es =>
    if e.live = false then some BWExit.shutdown
    else if timedwaitRet deadline e then some BWExit.timeout
    else backoffLoop deadline es

/-- Embedding of lines 527-533: the deadline is `vlc_tick_now()` at entry
plus `VLC_TICK_FROM_SEC(60)`. -/
def backoffWait (start : Nat) (es : List BWEvent) : Option BWExit :=
  backoffLoop (start + vlcTickFromSec 60) es

/-- Observation made by the waiting-for-work loop of `Run` (lines 535-536)
at each evaluation of `p_sys->live && p_sys->queue.size == 0`. -/
structure WorkObs where
  live : Bool
  queueEmpty : Bool
deriving DecidableEq

/-- How one iteration of the `Run` loop ends after its wait phases:
either `break` at line 539 or proceeding to build and send a payload. -/
inductive IterOutcome where
  | exitLoop
  | submit
deriving DecidableEq

/-- Embedding of lines 535-539: wait while live with an empty queue; when
the loop exits, a false liveness flag breaks out of `Run`, otherwise the
worker proceeds to submit.  `none` means still blocked at trace end. -/
def workPhase : List WorkObs → Option IterOutcome
  | [] => none
  | o :: os =>
    if o.live && o.queueEmpty then workPhase os
    else if o.live = false then some IterOutcome.exitLoop
    else some IterOutcome.submit

/-- Embedding of the wait phases of one `Run` loop iteration
(lines 527-539): the backoff loop runs only when `b_wait` is set; once it
exits (for either reason) the waiting-for-work loop runs on the `ws`
observations. -/
def runIterationW (b_wait : Bool) (start : Nat) (bw : List BWEvent)
    (ws : List WorkObs) : Option IterOutcome :=
  if b_wait then
    match backoffWait start bw with
    | none => none
    | some _ => workPhase ws
  else workPhase ws

/-- Metadata accessors of an `input_item_t` as used by `ReadMetaData`
(lines 122-174): each `input_item_GetX` returns NULL or a string, and the
duration in ticks. -/
structure InputItem where
  albumArtist : Option Str
  artist : Option Str
  title : Option Str
  album : Option Str
  trackID : Option Str
  trackNum : Option Str
  duration : Nat
deriving DecidableEq

/-- Embedding of the `RETRIEVE_METADATA(a, b)` macro (lines 136-143): if
the fetched string is non-NULL and non-empty, the field becomes the
encode/decode round-trip of it (`vlc_uri_decode(vlc_uri_encode(data))`),
else the field keeps its old value.  The URI codec lives outside this
module, so it is passed in as the `enc`/`dec` parameters. -/
def retrieveMeta (enc dec : Str → Str) (fetched old : Option Str) : Option Str :=
  match fetched with
  | some d => if d.isEmpty then old else some (dec (enc d))
  | none => old

/-- A fetched metadata string that `RETRIEVE_METADATA` would accept:
non-NULL and non-empty. -/
def usable : Option Str → Option Str
  | some d => if d.isEmpty then none else some d
  | none => none

/-- The artist source selected by lines 145-154: the album artist if
usable, else the track artist. -/
def artistSource (it : InputItem) : Option Str :=
  match usable it.albumArtist with
  | some a => some a
  | none => usable it.artist

/-- Embedding of `ReadMetaData` (lines 122-174).  A NULL item is a no-op.
Otherwise `b_meta_read` is set and `time(&date)` stamps the current song
before any validity check; a missing artist (after the album-artist →
artist fallback) or missing title triggers `DeleteSong` on the current
song; otherwise album, recording id and track number are retrieved and
`i_length` is set from the item duration. -/
def readMetaData (enc dec : Str → Str) (now : Nat) (item : Option InputItem)
    (s : IntfSys) : IntfSys :=
  match item with
  | none => s
  | some it =>
    let cur0 := { s.p_current_song with date := now }
    let s1 := { s with b_meta_read := true, p_current_song := cur0 }
    let a1 := retrieveMeta enc dec it.albumArtist cur0.psz_artist
    let a2 := if a1 = none then retrieveMeta enc dec it.artist a1 else a1
    if a2 = none then { s1 with p_current_song := emptyListen }
    else
      let t1 := retrieveMeta enc dec it.title cur0.psz_title
      if t1 = none then { s1 with p_current_song := emptyListen }
      else
        { s1 with p_current_song :=
          { psz_artist := a2
            psz_title := t1
            psz_album := retrieveMeta enc dec it.album cur0.psz_album
            psz_track_number := retrieveMeta enc dec it.trackNum cur0.psz_track_number
            psz_musicbrainz_recording_id := retrieveMeta enc dec it.trackID cur0.psz_musicbrainz_recording_id
            i_length := secFromVlcTick it.duration
            date := now } }

/-- Value of `VLC_PLAYER_STATE_STOPPED` in vlc_player.h. -/
def stateStopped : Nat := 0

/-- Value of `VLC_PLAYER_STATE_PLAYING` in vlc_player.h (the enum order is
STOPPED, STARTED, PLAYING, PAUSED, STOPPING). -/
def statePlaying : Nat := 2

/-- Which branch `PlayerStateChanged` (lines 216-233) takes. -/
inductive PSAction where
  | ignored
  | readMeta
  | enqueueSong
  | idle
deriving DecidableEq

/-- Embedding of `PlayerStateChanged` (lines 216-233): media with video
tracks is ignored; when metadata was not yet read and the state is at least
PLAYING, the current media's metadata is read; a STOPPED state enqueues the
current song; anything else does nothing. -/
def playerStateChanged (enc dec : Str → Str) (now : Nat) (videoTracks : Nat)
    (item : Option InputItem) (state : Nat) (s : IntfSys) : IntfSys × PSAction :=
  if videoTracks ≠ 0 then (s, PSAction.ignored)
  else if s.b_meta_read = false ∧ statePlaying ≤ state then
    (readMetaData enc dec now item s, PSAction.readMeta)
  else if state = stateStopped then (Enqueue s, PSAction.enqueueSong)
  else (s, PSAction.idle)

/-- Decimal rendering of the `%PRIu64` date field. -/
def natStr (n : Nat) : Str := (Nat.repr n).toList

/-- Text a NULL or non-NULL string pointer contributes to `printf "%s"`;
queued records always carry non-NULL artist and title, so the NULL default
is never exercised on required fields. -/
def strOf (o : Option Str) : Str := o.getD []

/-- Bytes `PreparePayload` (lines 275-289) emits for one queued song:
the `listened_at`/`track_metadata` object, with `release_name` only when
the album is non-empty and `additional_info.recording_mbid` only when the
recording id is non-empty, reproduced with the exact format strings of the
code (including its spacing and the comma emitted after `track_name`
regardless of what follows). -/
def songChunk (p : listen_t) : Str :=
  lit "\x7b\"listened_at\": " ++ natStr p.date
  ++ lit ", \"track_metadata\": \x7b\"artist_name\": \"" ++ strOf p.psz_artist ++ lit "\", "
  ++ lit " \"track_name\": \"" ++ strOf p.psz_title ++ lit "\", "
  ++ (if emptyStrB p.psz_album then []
      else lit " \"release_name\": \"" ++ strOf p.psz_album ++ lit "\"")
  ++ (if emptyStrB p.psz_musicbrainz_recording_id then []
      else lit ", \"additional_info\": \x7b\"recording_mbid\":\""
        ++ strOf p.psz_musicbrainz_recording_id ++ lit "\"\x7d ")
  ++ lit "\x7d\x7d"

/-- Opening chosen by lines 270-273 of `PreparePayload`. -/
def payloadHeader (q : List listen_t) : Str :=
  if q.length = 1 then lit "\x7b\"listen_type\":\"single\",\"payload\":["
  else lit "\x7b\"listen_type\":\"import\",\"payload\":["

/-- Embedding of `PreparePayload` (lines 264-301): header, the song chunks
of the queue in order (the loop emits no separator between them), and the
closing `]` brace.  The memstream cannot fail in this model. -/
def preparePayload (q : List listen_t) : Str :=
  payloadHeader q ++ ((q.map songChunk).flatten ++ lit "]\x7d")

/-- JSON whitespace per RFC 8259. -/
def isWsChar (c : Char) : Bool := c = ' ' || c = '\n' || c = '\t' || c = '\r'

/-- Drops leading JSON whitespace. -/
def skipWs : Str → Str
  | [] => []
  | c :: r => if isWsChar c then skipWs r else c :: r

/-- ASCII digit test. -/
def isDigitCh (c : Char) : Bool := '0' ≤ c && c ≤ '9'

/-- ASCII hex digit test. -/
def isHexCh (c : Char) : Bool :=
  isDigitCh c || ('a' ≤ c && c ≤ 'f') || ('A' ≤ c && c ≤ 'F')

/-- Consumes the body of a JSON string after the opening quote, including
escape sequences; returns the input remaining after the closing quote.
The fuel only needs to exceed the input length. -/
def chkStrBody : Nat → Str → Option Str
  | 0, _ => none
  | _, [] => none
  | f + 1, c :: r =>
    if c = '"' then some r
    else if c = '\\' then
      match r with
      | [] => none
      | e :: r2 =>
        if e = '"' || e = '\\' || e = '/' || e = 'b' || e = 'f'
            || e = 'n' || e = 'r' || e = 't' then chkStrBody f r2
        else if e = 'u' then
          match r2 with
          | a :: b :: c2 :: d :: r3 =>
            if isHexCh a && isHexCh b && isHexCh c2 && isHexCh d
            then chkStrBody f r3 else none
          | _ => none
        else none
    else if c.toNat < 32 then none
    else chkStrBody f r

/-- Consumes an expected literal tail (as in `true`, `false`, `null`). -/
def expectChars : Str → Str → Option Str
  | [], s => some s
  | _ :: _, [] => none
  | c :: cs, h :: hs => if c = h then expectChars cs hs else none

/-- Consumes the optional fraction and exponent of a JSON number. -/
def chkNumTail (s : Str) : Option Str :=
  let s1 : Option Str :=
    match s with
    | '.' :: r =>
      match r.span isDigitCh with
      | ([], _) => none
      | (_, r2) => some r2
    | _ => some s
  match s1 with
  | none => none
  | some s2 =>
    match s2 with
    | c :: r =>
      if c = 'e' || c = 'E' then
        let r2 : Str :=
          match r with
          | c2 :: r' => if c2 = '+' || c2 = '-' then r' else c2 :: r'
          | [] => []
        match r2.span isDigitCh with
        | ([], _) => none
        | (_, r3) => some r3
      else some (c :: r)
    | [] => some []

/-- Consumes a JSON number (leading-zero rule included). -/
def chkNumber (s : Str) : Option Str :=
  let s1 : Str := match s with | '-' :: r => r | _ => s
  match s1 with
  | '0' :: r => chkNumTail r
  | c :: r => if isDigitCh c then chkNumTail (r.dropWhile isDigitCh) else none
  | [] => none

/-- Mode of the JSON grammar walker. -/
inductive PMode where
  | val
  | objBody
  | objMembers
  | arrBody
  | arrElems

/-- Fuelled recursive-descent walker of the RFC 8259 grammar, used as the
meaning of "syntactically valid JSON".  Returns the unconsumed input after
one value (`val`), the inside of an object after its opening brace
(`objBody`/`objMembers`), or the inside of an array after its opening
bracket (`arrBody`/`arrElems`). -/
def chk : Nat → PMode → Str → Option Str
  | 0, _, _ => none
  | f + 1, PMode.val, s =>
    (match skipWs s with
    | [] => none
    | c :: r =>
      if c = '\x7b' then chk f PMode.objBody r
      else if c = '[' then chk f PMode.arrBody r
      else if c = '"' then chkStrBody (r.length + 1) r
      else if c = 't' then expectChars (lit "rue") r
      else if c = 'f' then expectChars (lit "alse") r
      else if c = 'n' then expectChars (lit "ull") r
      else chkNumber (c :: r))
  | f + 1, PMode.objBody, s =>
    (match skipWs s with
    | '\x7d' :: r => some r
    | s2 => chk f PMode.objMembers s2)
  | f + 1, PMode.objMembers, s =>
    (match skipWs s with
    | '"' :: r =>
      (match chkStrBody (r.length + 1) r with
      | none => none
      | some r2 =>
        match skipWs r2 with
        | ':' :: r3 =>
          (match chk f PMode.val r3 with
          | none => none
          | some r4 =>
            match skipWs r4 with
            | ',' :: r5 => chk f PMode.objMembers r5
            | '\x7d' :: r5 => some r5
            | _ => none)
        | _ => none)
    | _ => none)
  | f + 1, PMode.arrBody, s =>
    (match skipWs s with
    | ']' :: r => some r
    | s2 => chk f PMode.arrElems s2)
  | f + 1, PMode.arrElems, s =>
    (match chk f PMode.val s with
    | none => none
    | some r =>
      match skipWs r with
      | ',' :: r2 => chk f PMode.arrElems r2
      | ']' :: r2 => some r2
      | _ => none)

/-- A byte sequence is valid JSON when the walker consumes exactly one
value and only whitespace remains.  The fuel bound is generous: the walker
consumes at least one input character per two fuel units. -/
def jsonValid (s : Str) : Bool :=
  match chk (3 * s.length + 3) PMode.val s with
  | some r => (skipWs r).isEmpty
  | none => false

/-- Sample record with an empty album and empty recording id, as produced
for a track whose item carries only artist and title. -/
def songNoAlbum : listen_t :=
  { psz_artist := some (lit "A")
    psz_title := some (lit "T")
    psz_album := none
    psz_track_number := none
    psz_musicbrainz_recording_id := none
    i_length := 100
    date := 42 }

/-- Sample record with a non-empty album. -/
def songWithAlbum : listen_t :=
  { psz_artist := some (lit "A")
    psz_title := some (lit "T")
    psz_album := some (lit "AL")
    psz_track_number := none
    psz_musicbrainz_recording_id := none
    i_length := 100
    date := 42 }

/-- Sample queued record for the C2 witness. -/
def c2Song : listen_t :=
  { psz_artist := some (lit "B")
    psz_title := some (lit "S")
    psz_album := none
    psz_track_number := none
    psz_musicbrainz_recording_id := none
    i_length := 180
    date := 50 }

/-- Sample response buffer containing a newline, for the C4 witness. -/
def c4Buf : Str := lit "HTTP/1.1 200 OK\r\nServer: x"

/-- Sample media item for the C7 witness: no album artist, so the track
artist fallback is exercised. -/
def c7Item : InputItem :=
  { albumArtist := none
    artist := some (lit "Art")
    trackID := none
    title := some (lit "Tit")
    album := some (lit "Alb")
    trackNum := some (lit "3")
    duration := 200000000 }

/-- Sample state with an empty current song, for the C7 witness. -/
def c7State : IntfSys :=
  { queue := []
    live := true
    p_current_song := emptyListen
    b_meta_read := false
    time_played := 0 }

/-- Sample media item for the C9 witness. -/
def c9Item : InputItem :=
  { albumArtist := some (lit "AA")
    artist := none
    title := none
    album := none
    trackID := none
    trackNum := none
    duration := 1000000 }

/-- Sample state whose metadata-read flag is already set, for the C9
witness. -/
def c9State : IntfSys :=
  { queue := []
    live := true
    p_current_song := emptyListen
    b_meta_read := true
    time_played := 12 }

/-- Sample state for the C1 witness: a populated current song with 45
observed seconds. -/
def c1Sample : IntfSys :=
  { queue := []
    live := true
    p_current_song :=
      { psz_artist := some (lit "X")
        psz_title := some (lit "Y")
        psz_album := none
        psz_track_number := none
        psz_musicbrainz_recording_id := none
        i_length := 0
        date := 7 }
    b_meta_read := true
    time_played := 45 }

/-- Claim C1: for every current listen record (reachable ones satisfy the
zero-date sentinel property given as hypothesis `h`: a zero `date` means
the record was never populated, hence is fully empty), `Enqueue` appends it
to the queue iff artist and title are non-empty and the observed listened
time is at least 30 seconds; in every case the current song ends up reset
to empty, and an ineligible record leaves the queue unchanged. -/
theorem enqueue_adds_iff_eligible (s : IntfSys)
    (h : s.p_current_song.date = 0 → s.p_current_song = emptyListen) :
    ((Enqueue s).queue =
      if eligibleListen s.p_current_song s.time_played
      then s.queue ++ [finalizeListen s.p_current_song s.time_played]
      else s.queue)
    ∧ (Enqueue s).p_current_song = emptyListen
    ∧ ((Enqueue s).queue ≠ s.queue ↔ eligibleListen s.p_current_song s.time_played = true) := by
  by_cases hd : s.p_current_song.date = 0
  · have he := h hd
    refine ⟨?_, ?_, ?_⟩
    · simp [Enqueue, hd, he, eligibleListen, emptyStrB, emptyListen]
    · simp [Enqueue, hd, he, emptyListen]
    · simp [Enqueue, hd, he, eligibleListen, emptyStrB, emptyListen]
  · by_cases ha : emptyStrB s.p_current_song.psz_artist = true
    · refine ⟨?_, ?_, ?_⟩ <;>
        simp [Enqueue, hd, ha, eligibleListen]
    · by_cases ht : emptyStrB s.p_current_song.psz_title = true
      · refine ⟨?_, ?_, ?_⟩ <;>
          simp [Enqueue, hd, ha, ht, eligibleListen]
      · by_cases htp : s.time_played < 30
        · have h30 : ¬ (30 ≤ s.time_played) := by omega
          refine ⟨?_, ?_, ?_⟩ <;>
            simp [Enqueue, hd, ha, ht, htp, eligibleListen, h30]
        · have h30 : 30 ≤ s.time_played := by omega
          refine ⟨?_, ?_, ?_⟩ <;>
            simp [Enqueue, hd, ha, ht, htp, eligibleListen, h30]

/-- Witness for C1 at a concrete eligible state. -/
theorem enqueue_adds_iff_eligible_wit :
    (c1Sample.p_current_song.date = 0 → c1Sample.p_current_song = emptyListen)
    ∧ (((Enqueue c1Sample).queue =
        if eligibleListen c1Sample.p_current_song c1Sample.time_played
        then c1Sample.queue ++ [finalizeListen c1Sample.p_current_song c1Sample.time_played]
        else c1Sample.queue)
      ∧ (Enqueue c1Sample).p_current_song = emptyListen
      ∧ ((Enqueue c1Sample).queue ≠ c1Sample.queue
          ↔ eligibleListen c1Sample.p_current_song c1Sample.time_played = true)) :=
  ⟨by decide, enqueue_adds_iff_eligible c1Sample (by decide)⟩

set_option maxRecDepth 40000

/-- Helper: retrieving into a NULL field stores the encode/decode
round-trip exactly of a usable (non-NULL, non-empty) fetched string. -/
theorem retrieveMeta_none_eq (enc dec : Str → Str) (f : Option Str) :
    retrieveMeta enc dec f none = (usable f).map (fun d => dec (enc d)) := by
  cases f with
  | none => rfl
  | some d =>
    by_cases hd : d.isEmpty <;> simp [retrieveMeta, usable, hd]

/-- Claim C2: in a submission pass over a non-empty batch `q`, with
`pushed` the records appended by the producer while the worker had the lock
released for network I/O, the queue is cleared iff the attempt succeeded;
on failure the queue holds exactly the old elements followed by the new
ones, the backoff flag is set, and further records pushed while the retry
is pending keep appending. -/
theorem run_clears_queue_iff_success (q pushed : List listen_t) (h : q ≠ []) :
    (∀ ok, (submitPhase q pushed ok).1 = [] ↔ ok = true)
    ∧ (submitPhase q pushed false).1 = q ++ pushed
    ∧ (submitPhase q pushed false).2 = true
    ∧ (submitPhase q pushed true).1 = []
    ∧ (submitPhase q pushed true).2 = false
    ∧ (∀ r, vlcVectorPush (submitPhase q pushed false).1 r = q ++ pushed ++ [r]) := by
  refine ⟨?_, rfl, rfl, rfl, rfl, ?_⟩
  · intro ok
    cases ok with
    | false => simp [submitPhase, h]
    | true => simp [submitPhase]
  · intro r
    simp [vlcVectorPush, submitPhase]

/-- Witness for C2 on a one-element batch with no concurrent pushes. -/
theorem run_clears_queue_iff_success_wit :
    (([c2Song] : List listen_t) ≠ [])
    ∧ ((∀ ok, (submitPhase [c2Song] [] ok).1 = [] ↔ ok = true)
      ∧ (submitPhase [c2Song] [] false).1 = [c2Song] ++ []
      ∧ (submitPhase [c2Song] [] false).2 = true
      ∧ (submitPhase [c2Song] [] true).1 = []
      ∧ (submitPhase [c2Song] [] true).2 = false
      ∧ (∀ r, vlcVectorPush (submitPhase [c2Song] [] false).1 r
            = [c2Song] ++ [] ++ [r])) :=
  ⟨by decide, run_clears_queue_iff_success [c2Song] [] (by decide)⟩

/-- Claim C3 is refuted by the code: `PreparePayload` emits no separator
between consecutive elements of the `payload` array (the loop body starts
each element directly after the previous one's closing braces), and when a
record's album is empty it leaves a comma dangling before the closing
braces (the `track_name` format string always ends in a comma while
`release_name` carries no leading one).  The first conjunct exhibits the
exact bytes produced for a one-record batch with no album — note the
`", }}"` — which no JSON grammar accepts; a two-record batch fails even
with albums present because of the missing `","` between the elements.
The last conjunct is a control showing the checker accepts the one case
the code gets right (single record with album, no recording id). -/
theorem preparePayload_emits_invalid_json :
    preparePayload [songNoAlbum]
      = lit "\x7b\"listen_type\":\"single\",\"payload\":[\x7b\"listened_at\": 42, \"track_metadata\": \x7b\"artist_name\": \"A\",  \"track_name\": \"T\", \x7d\x7d]\x7d"
    ∧ jsonValid (preparePayload [songNoAlbum]) = false
    ∧ jsonValid (preparePayload [songWithAlbum, songWithAlbum]) = false
    ∧ jsonValid (preparePayload [songWithAlbum]) = true := by
  refine ⟨by decide, by decide, by decide, by decide⟩

/-- Claim C4: for a response buffer containing a newline, `SendRequest`
reports success exactly when the first line contains the substring `"200"`;
every other first line — 401 included — and every transport-level failure
produce the single failure value `VLC_EGENERIC`, so all failures are
indistinguishable to the retry logic. -/
theorem sendRequest_success_iff_200 (buf : Str) (h : hasNewline buf = true) :
    (SendRequest (SendOutcome.response buf) = ReqResult.success
      ↔ hasSubstr (lit "200") (statusLine buf) = true)
    ∧ (hasSubstr (lit "200") (statusLine buf) = false →
        SendRequest (SendOutcome.response buf) = ReqResult.egeneric)
    ∧ SendRequest SendOutcome.connectFail = ReqResult.egeneric
    ∧ SendRequest SendOutcome.writeFail = ReqResult.egeneric
    ∧ SendRequest SendOutcome.readFail = ReqResult.egeneric := by
  refine ⟨?_, ?_, rfl, rfl, rfl⟩
  · by_cases hs : hasSubstr (lit "200") (statusLine buf) = true <;>
      simp [SendRequest, h, hs]
  · intro hs
    simp [SendRequest, h, hs]

/-- Witness for C4 on a concrete 200 status line. -/
theorem sendRequest_success_iff_200_wit :
    hasNewline c4Buf = true
    ∧ ((SendRequest (SendOutcome.response c4Buf) = ReqResult.success
        ↔ hasSubstr (lit "200") (statusLine c4Buf) = true)
      ∧ (hasSubstr (lit "200") (statusLine c4Buf) = false →
          SendRequest (SendOutcome.response c4Buf) = ReqResult.egeneric)
      ∧ SendRequest SendOutcome.connectFail = ReqResult.egeneric
      ∧ SendRequest SendOutcome.writeFail = ReqResult.egeneric
      ∧ SendRequest SendOutcome.readFail = ReqResult.egeneric) :=
  ⟨by decide, sendRequest_success_iff_200 c4Buf (by decide)⟩

/-- Claim C5: the backoff wait ends only at an observation where the
liveness flag is false or the 60-second deadline has passed; in particular
a trace consisting purely of condition-variable signals delivered before
the deadline (new work being enqueued) leaves the worker still waiting. -/
theorem backoff_only_timeout_or_shutdown (start : Nat) (es : List BWEvent) :
    (∀ r, backoffWait start es = some r →
      ∃ e ∈ es, e.live = false ∨ start + vlcTickFromSec 60 ≤ e.now)
    ∧ ((∀ e ∈ es, e.live = true ∧ e.now < start + vlcTickFromSec 60) →
        backoffWait start es = none) := by
  induction es with
  | nil =>
    refine ⟨?_, ?_⟩
    · intro r hr
      simp [backoffWait, backoffLoop] at hr
    · intro _
      simp [backoffWait, backoffLoop]
  | cons e es ih =>
    refine ⟨?_, ?_⟩
    · intro r hr
      by_cases hl : e.live = false
      · exact ⟨e, by simp, Or.inl hl⟩
      · by_cases hto : start + vlcTickFromSec 60 ≤ e.now
        · exact ⟨e, by simp, Or.inr hto⟩
        · have hr' : backoffWait start es = some r := by
            simpa [backoffWait, backoffLoop, hl, timedwaitRet, hto] using hr
          obtain ⟨e', he', hp⟩ := ih.1 r hr'
          exact ⟨e', by simp [he'], hp⟩
    · intro hall
      have h1 := hall e (by simp)
      have htail : backoffWait start es = none :=
        ih.2 (fun e' he' => hall e' (by simp [he']))
      have hto : ¬ (start + vlcTickFromSec 60 ≤ e.now) := by omega
      simpa [backoffWait, backoffLoop, h1.1, timedwaitRet, hto] using htail

/-- Witness for C5: one new-work signal 5 ticks in does not end the wait. -/
theorem backoff_only_timeout_or_shutdown_wit :
    (∀ e ∈ [BWEvent.mk true 5], e.live = true ∧ e.now < 0 + vlcTickFromSec 60)
    ∧ backoffWait 0 [BWEvent.mk true 5] = none :=
  ⟨by decide, (backoff_only_timeout_or_shutdown 0 [BWEvent.mk true 5]).2 (by decide)⟩

/-- Claim C6: the payload opens with listen type `"single"` exactly when
the batch has one element, and with `"import"` for every other size
(including the empty batch). -/
theorem payload_listen_type_single_iff (q : List listen_t) :
    ((preparePayload q).take 35 = lit "\x7b\"listen_type\":\"single\",\"payload\":["
      ↔ q.length = 1)
    ∧ ((preparePayload q).take 35 = lit "\x7b\"listen_type\":\"import\",\"payload\":["
      ↔ ¬ q.length = 1) := by
  have hsingle : ∀ rest : Str,
      (lit "\x7b\"listen_type\":\"single\",\"payload\":[" ++ rest).take 35
        = lit "\x7b\"listen_type\":\"single\",\"payload\":[" := by
    intro rest
    have h35 : (lit "\x7b\"listen_type\":\"single\",\"payload\":[").length = 35 := rfl
    rw [← h35]
    exact List.take_left _ _
  have himport : ∀ rest : Str,
      (lit "\x7b\"listen_type\":\"import\",\"payload\":[" ++ rest).take 35
        = lit "\x7b\"listen_type\":\"import\",\"payload\":[" := by
    intro rest
    have h35 : (lit "\x7b\"listen_type\":\"import\",\"payload\":[").length = 35 := rfl
    rw [← h35]
    exact List.take_left _ _
  have hne : lit "\x7b\"listen_type\":\"single\",\"payload\":["
      ≠ lit "\x7b\"listen_type\":\"import\",\"payload\":[" := by decide
  by_cases h : q.length = 1
  · have htake := hsingle ((q.map songChunk).flatten ++ lit "]\x7d")
    rw [preparePayload, payloadHeader, if_pos h]
    exact ⟨⟨fun _ => h, fun _ => htake⟩,
      ⟨fun hc => absurd (htake.symm.trans hc) hne, fun hc => absurd h hc⟩⟩
  · have htake := himport ((q.map songChunk).flatten ++ lit "]\x7d")
    rw [preparePayload, payloadHeader, if_neg h]
    exact ⟨⟨fun hc => absurd (htake.symm.trans hc) (fun hx => hne hx.symm),
      fun hc => absurd hc h⟩, ⟨fun _ => h, fun _ => htake⟩⟩

/-- Claim C7: populating from a media item with an empty current song
takes the artist from the album artist, falling back to the track artist;
if neither is usable, or the title is missing, the current song is reset to
empty right there (eager reject); otherwise every stored string is the
encode/decode round-trip of the fetched one, the optional fields are kept
exactly when usable, and the capture timestamp is stamped. -/
theorem readMetaData_populates (enc dec : Str → Str) (now : Nat)
    (it : InputItem) (s : IntfSys) (h : s.p_current_song = emptyListen) :
    ((readMetaData enc dec now (some it) s).b_meta_read = true)
    ∧ (artistSource it = none ∨ usable it.title = none →
        (readMetaData enc dec now (some it) s).p_current_song = emptyListen)
    ∧ (∀ a t, artistSource it = some a → usable it.title = some t →
        (readMetaData enc dec now (some it) s).p_current_song =
          { psz_artist := some (dec (enc a))
            psz_title := some (dec (enc t))
            psz_album := (usable it.album).map (fun d => dec (enc d))
            psz_track_number := (usable it.trackNum).map (fun d => dec (enc d))
            psz_musicbrainz_recording_id := (usable it.trackID).map (fun d => dec (enc d))
            i_length := secFromVlcTick it.duration
            date := now }) := by
  cases haa : usable it.albumArtist with
  | some a0 =>
    cases hti : usable it.title with
    | some t0 =>
      refine ⟨?_, ?_, ?_⟩
      · simp [readMetaData, h, emptyListen, retrieveMeta_none_eq, haa, hti]
      · intro hbad
        rcases hbad with hbad | hbad
        · simp [artistSource, haa] at hbad
        · simp at hbad
      · intro a t hA hT
        have ha' : a0 = a := by simpa [artistSource, haa] using hA
        have ht' : t0 = t := by injection hT
        subst ha'
        subst ht'
        simp [readMetaData, h, emptyListen, retrieveMeta_none_eq, haa, hti]
    | none =>
      refine ⟨?_, ?_, ?_⟩
      · simp [readMetaData, h, emptyListen, retrieveMeta_none_eq, haa, hti]
      · intro _
        simp [readMetaData, h, emptyListen, retrieveMeta_none_eq, haa, hti]
      · intro a t hA hT
        simp at hT
  | none =>
    cases har : usable it.artist with
    | some a0 =>
      cases hti : usable it.title with
      | some t0 =>
        refine ⟨?_, ?_, ?_⟩
        · simp [readMetaData, h, emptyListen, retrieveMeta_none_eq, haa, har, hti]
        · intro hbad
          rcases hbad with hbad | hbad
          · simp [artistSource, haa, har] at hbad
          · simp at hbad
        · intro a t hA hT
          have ha' : a0 = a := by simpa [artistSource, haa, har] using hA
          have ht' : t0 = t := by injection hT
          subst ha'
          subst ht'
          simp [readMetaData, h, emptyListen, retrieveMeta_none_eq, haa, har, hti]
      | none =>
        refine ⟨?_, ?_, ?_⟩
        · simp [readMetaData, h, emptyListen, retrieveMeta_none_eq, haa, har, hti]
        · intro _
          simp [readMetaData, h, emptyListen, retrieveMeta_none_eq, haa, har, hti]
        · intro a t hA hT
          simp at hT
    | none =>
      refine ⟨?_, ?_, ?_⟩
      · simp [readMetaData, h, emptyListen, retrieveMeta_none_eq, haa, har]
      · intro _
        simp [readMetaData, h, emptyListen, retrieveMeta_none_eq, haa, har]
      · intro a t hA hT
        simp [artistSource, haa, har] at hA

/-- Witness for C7: fallback to the track artist on a concrete item, with
the identity as the URI codec. -/
theorem readMetaData_populates_wit :
    (c7State.p_current_song = emptyListen)
    ∧ artistSource c7Item = some (lit "Art")
    ∧ usable c7Item.title = some (lit "Tit")
    ∧ (readMetaData (fun x => x) (fun x => x) 99 (some c7Item) c7State).p_current_song =
        { psz_artist := some (lit "Art")
          psz_title := some (lit "Tit")
          psz_album := some (lit "Alb")
          psz_track_number := some (lit "3")
          psz_musicbrainz_recording_id := none
          i_length := 200
          date := 99 } :=
  ⟨rfl, by decide, by decide,
    (readMetaData_populates (fun x => x) (fun x => x) 99 c7Item c7State rfl).2.2
      (lit "Art") (lit "Tit") (by decide) (by decide)⟩

/-- Claim C8: a shutdown observed while the worker sits in the backoff
wait makes that wait return immediately with the shutdown exit; the
following liveness check then ends the iteration with `exitLoop` — never
`submit` — and the same holds when the shutdown is observed in the
waiting-for-work wait. -/
theorem shutdown_wakes_and_exits (start : Nat) (e : BWEvent) (es : List BWEvent)
    (o : WorkObs) (os : List WorkObs) (h1 : e.live = false) (h2 : o.live = false) :
    backoffWait start (e :: es) = some BWExit.shutdown
    ∧ runIterationW true start (e :: es) (o :: os) = some IterOutcome.exitLoop
    ∧ runIterationW false start [] (o :: os) = some IterOutcome.exitLoop := by
  have hb : backoffWait start (e :: es) = some BWExit.shutdown := by
    simp [backoffWait, backoffLoop, h1]
  have hw : workPhase (o :: os) = some IterOutcome.exitLoop := by
    simp [workPhase, h2]
  exact ⟨hb, by simp [runIterationW, hb, hw], by simp [runIterationW, hw]⟩

/-- Witness for C8 on concrete shutdown observations. -/
theorem shutdown_wakes_and_exits_wit :
    (BWEvent.mk false 3).live = false
    ∧ (WorkObs.mk false true).live = false
    ∧ (backoffWait 0 [BWEvent.mk false 3] = some BWExit.shutdown
      ∧ runIterationW true 0 [BWEvent.mk false 3] [WorkObs.mk false true]
          = some IterOutcome.exitLoop
      ∧ runIterationW false 0 [] [WorkObs.mk false true]
          = some IterOutcome.exitLoop) :=
  ⟨rfl, rfl,
    shutdown_wakes_and_exits 0 (BWEvent.mk false 3) [] (WorkObs.mk false true) [] rfl rfl⟩

/-- Claim C9: reading metadata from a non-null item always leaves the
metadata-read flag set — the flag and the timestamp are written before the
validity checks, so the flag survives an eager reject (whose only trace on
the record is the reset to empty; a kept record carries the stamped date);
with the flag set, a later playing-state signal can no longer take the
metadata-population branch of `PlayerStateChanged`. -/
theorem meta_read_flag_blocks_reread (enc dec : Str → Str) (now : Nat)
    (it : InputItem) (s : IntfSys) :
    ((readMetaData enc dec now (some it) s).b_meta_read = true)
    ∧ ((readMetaData enc dec now (some it) s).p_current_song = emptyListen
      ∨ (readMetaData enc dec now (some it) s).p_current_song.date = now)
    ∧ (∀ (s' : IntfSys) (vt st : Nat) (item' : Option InputItem),
        s'.b_meta_read = true →
        (playerStateChanged enc dec now vt item' st s').2 ≠ PSAction.readMeta) := by
  refine ⟨?_, ?_, ?_⟩
  · simp only [readMetaData]
    repeat' split
    all_goals rfl
  · simp only [readMetaData]
    repeat' split
    all_goals first | exact Or.inl rfl | exact Or.inr rfl
  · intro s' vt st item' hflag
    by_cases hv : vt = 0
    · rw [playerStateChanged, if_neg (by simp [hv])]
      rw [if_neg (by simp [hflag])]
      split
      · simp
      · simp
    · rw [playerStateChanged, if_pos hv]
      simp

/-- Witness for C9: with the flag already set, a playing signal takes a
branch other than metadata population. -/
theorem meta_read_flag_blocks_reread_wit :
    c9State.b_meta_read = true
    ∧ (playerStateChanged (fun x => x) (fun x => x) 5 0 none 2 c9State).2
        ≠ PSAction.readMeta :=
  ⟨rfl,
    (meta_read_flag_blocks_reread (fun x => x) (fun x => x) 5 c9Item c9State).2.2
      c9State 0 2 none rfl⟩

/-- Claim C10 is refuted by the code: a response buffer that contains no
newline at all — here the bytes `HTTP/1.1 200 OK` with nothing after them —
makes `strchr(p_buffer, newline)` at line 364 return NULL, which line 365
dereferences unconditionally (`*status = 0`).  The embedding records that
control path as `nullDeref`. -/
theorem sendRequest_null_deref_on_no_newline :
    SendRequest (SendOutcome.response (lit "HTTP/1.1 200 OK")) = ReqResult.nullDeref := by
  decide
